import Mathlib

/-!
Shallow embedding of `src/main.py` (a Flask health-journal app).

Modelling conventions:
* Python floats are modelled as rationals (`ℚ`); all the arithmetic in the
  source (sums, products, divisions by 100/7700, comparisons) is exact.
* Python's builtin `round` rounds half to even; `pyRound q` models
  `round(q, 0)` (as an integer) and `round2 q` models `round(q, 2)`.
* Calendar dates are modelled as integers counting days from a fixed Monday
  epoch (Python's proleptic-Gregorian ordinal day 1, 0001-01-01, is a Monday,
  so `date.weekday()` becomes `d % 7` with 0 = Monday).
* A form field carries the outcome of `request.form.get` + numeric parsing:
  `none` = field absent from the submission, `some none` = field present but
  `float(...)`/`strptime` raises (`ValueError`), `some (some v)` = field
  present and parses to `v`.
* The SQLAlchemy tables are lists of rows in insertion order:
  `query.first()` is `head?`, `filter_by(date=..).first()` is `find?`,
  mutating a fetched row in place rewrites it at its position, and
  `session.add` appends.  `created_at` / `updated_at` / `recorded_at`
  timestamps are not modelled (no claim mentions them); a `BodyFatHistory`
  row is just its `body_fat` value.
* Every route handler returns `redirect('/')` on every path; the response is
  the single-constructor `Response.redirectHome`.
-/

/-- Python's `round(q, 0)` on an exact value: nearest integer, ties to even. -/
def pyRound (q : ℚ) : ℤ :=
  let f : ℤ := ⌊q⌋
  let frac : ℚ := q - f
  if frac < 1/2 then f
  else if 1/2 < frac then f + 1
  else if f % 2 = 0 then f else f + 1

/-- Python's `round(q, 2)`: round to the nearest multiple of 1/100. -/
def round2 (q : ℚ) : ℚ := (pyRound (q * 100) : ℚ) / 100

/-- Row of table `user_profile` (`id`, `created_at` not modelled). -/
structure UserProfile where
  height : ℚ
  weight : ℚ
  body_fat : ℚ
  age : ℤ
  gender : Option String
deriving DecidableEq

/-- Row of table `daily_logs` (`id`, timestamps not modelled). -/
structure DailyLog where
  date : ℤ
  weight : ℚ
  walk_km : ℚ
  consumed_calories : ℚ
  exercise_burnt : ℚ
  total_burn : ℚ
  deficit : ℚ
  fat_loss_g : ℚ
deriving DecidableEq

/-- The three tables of the database, rows in insertion order.  A
`body_fat_history` row is represented by its `body_fat` value. -/
structure AppState where
  profiles : List UserProfile
  logs : List DailyLog
  body_fat_history : List ℚ
deriving DecidableEq

/-- Every route handler path ends in `redirect('/')`. -/
inductive Response where
  | redirectHome
deriving DecidableEq

/-- `UserProfile.query.first()`. -/
def get_user_profile (st : AppState) : Option UserProfile := st.profiles.head?

/-- `calculate_katch_mcardle_bmr(weight, body_fat)`: `None` if either input
is `None`, otherwise `round(370 + 21.6 * (weight * (1 - body_fat/100)), 0)`. -/
def calculate_katch_mcardle_bmr (weight body_fat : Option ℚ) : Option ℚ :=
  match weight, body_fat with
  | some w, some bf =>
    let lbm := w * (1 - bf / 100)
    let bmr := 370 + 21.6 * lbm
    some ((pyRound bmr : ℤ) : ℚ)
  | _, _ => none

/-- `float(request.form.get(name))`: no default, so an absent field
(`None`) raises `TypeError` and a present non-numeric field raises
`ValueError`; only a present, numeric field yields a value. -/
def formGetRequired {α : Type} (field : Option (Option α)) : Option α :=
  match field with
  | some (some v) => some v
  | _ => none

/-- `float(request.form.get(name, default))` (or `strptime` for the date):
an absent field falls back to the default, which always parses; a present
field must itself parse. -/
def formGetDefault {α : Type} (field : Option (Option α)) (default : α) : Option α :=
  match field with
  | none => some default
  | some o => o

/-- The `/setup` form: four numeric fields plus the raw `gender` string
(fetched with `request.form.get('gender')`, never parsed). -/
structure SetupForm where
  height : Option (Option ℚ)
  weight : Option (Option ℚ)
  body_fat : Option (Option ℚ)
  age : Option (Option ℤ)
  gender : Option String

/-- The `/log` form: a date field and four numeric fields. -/
structure LogForm where
  date : Option (Option ℤ)
  weight : Option (Option ℚ)
  walk : Option (Option ℚ)
  consumed : Option (Option ℚ)
  burnt : Option (Option ℚ)

/-- `POST /setup` (`setup_profile` in `main.py`): parse the four numeric
fields (any failure is caught: state unchanged), then mutate the first
profile row in place or insert one, and append a `BodyFatHistory` entry. -/
def setup_profile (st : AppState) (form : SetupForm) : AppState × Response :=
  match formGetRequired form.height, formGetRequired form.weight,
        formGetRequired form.body_fat, formGetRequired form.age with
  | some height, some weight, some body_fat, some age =>
    let gender := form.gender
    let profiles :=
      match st.profiles with
      | user :: rest =>
        { user with height := height, weight := weight, body_fat := body_fat,
                    age := age, gender := gender } :: rest
      | [] => [⟨height, weight, body_fat, age, gender⟩]
    ({ st with profiles := profiles,
               body_fat_history := st.body_fat_history ++ [body_fat] },
     Response.redirectHome)
  | _, _, _, _ => (st, Response.redirectHome)

/-- Rewrite in place the first log row whose `date` is `d` (the row
`DailyLog.query.filter_by(date=log_date).first()` returns). -/
def updateFirstLog (d : ℤ) (f : DailyLog → DailyLog) : List DailyLog → List DailyLog
  | [] => []
  | r :: rs => if r.date = d then f r :: rs else r :: updateFirstLog d f rs

/-- `POST /log` (`log_data` in `main.py`): no-op without a profile; parse
date/weight/walk/consumed/burnt with their defaults (any failure is caught:
state unchanged); compute BMR, total burn, deficit and fat loss; then
overwrite the existing row for that date in place, or insert a new row. -/
def log_data (st : AppState) (form : LogForm) (today : ℤ) : AppState × Response :=
  match st.profiles with
  | [] => (st, Response.redirectHome)
  | user :: _ =>
    match formGetDefault form.date today, formGetDefault form.weight user.weight,
          formGetDefault form.walk 0, formGetDefault form.consumed 0,
          formGetDefault form.burnt 0 with
    | some log_date, some weight, some walk_km, some consumed, some burnt =>
      match calculate_katch_mcardle_bmr (some weight) (some user.body_fat) with
      | some bmr =>
        let total_burn := bmr + walk_km * 60 + burnt
        let deficit := total_burn - consumed
        let fat_loss_g := if 0 < deficit then deficit / 7700 * 1000 else 0
        let logs :=
          match st.logs.find? (fun r => r.date == log_date) with
          | some _ =>
            updateFirstLog log_date (fun r =>
              { r with weight := weight, walk_km := walk_km,
                       consumed_calories := consumed, exercise_burnt := burnt,
                       total_burn := ((pyRound total_burn : ℤ) : ℚ),
                       deficit := ((pyRound deficit : ℤ) : ℚ),
                       fat_loss_g := round2 fat_loss_g }) st.logs
          | none =>
            st.logs ++ [⟨log_date, weight, walk_km, consumed, burnt,
                         ((pyRound total_burn : ℤ) : ℚ), ((pyRound deficit : ℤ) : ℚ),
                         round2 fat_loss_g⟩]
        ({ st with logs := logs }, Response.redirectHome)
      | none => (st, Response.redirectHome)
    | _, _, _, _, _ => (st, Response.redirectHome)

/-- `POST /update-body-fat` (`update_body_fat` in `main.py`): no-op without
a profile; parse `body_fat` (failure caught: state unchanged); mutate the
profile's `body_fat` in place and append a `BodyFatHistory` entry. -/
def update_body_fat (st : AppState) (body_fat_field : Option (Option ℚ)) :
    AppState × Response :=
  match st.profiles with
  | [] => (st, Response.redirectHome)
  | user :: rest =>
    match formGetRequired body_fat_field with
    | some new_body_fat =>
      ({ st with profiles := { user with body_fat := new_body_fat } :: rest,
                 body_fat_history := st.body_fat_history ++ [new_body_fat] },
       Response.redirectHome)
    | none => (st, Response.redirectHome)

/-- One bucket of `get_weekly_summary`'s `weekly` defaultdict. -/
structure WeekSummary where
  total_burn : ℚ
  consumed : ℚ
  deficit : ℚ
  fat_loss : ℚ
  days : ℕ
deriving DecidableEq

/-- `log.date - timedelta(days=log.date.weekday())`: the Monday of the ISO
week containing `d` (weekday of `d` is `d % 7`, 0 = Monday). -/
def mondayOf (d : ℤ) : ℤ := d - d % 7

/-- The body of `get_weekly_summary`'s loop: add one log to the bucket keyed
by the Monday of its week.  (The source reads `log.total_burn or 0` etc. to
guard against SQL `NULL`; fields are total here, and `0 or 0 == 0`, so the
value added is the field itself.) -/
def weeklyStep (acc : ℤ → WeekSummary) (log : DailyLog) : ℤ → WeekSummary :=
  fun k =>
    if k = mondayOf log.date then
      ⟨(acc k).total_burn + log.total_burn,
       (acc k).consumed + log.consumed_calories,
       (acc k).deficit + log.deficit,
       (acc k).fat_loss + log.fat_loss_g,
       (acc k).days + 1⟩
    else acc k

/-- `get_weekly_summary()`: fold the loop over `DailyLog.query.all()` (the
log table), starting from the defaultdict of all-zero buckets.  The dict is
modelled as a total function from week key (a Monday) to bucket. -/
def get_weekly_summary (logs : List DailyLog) : ℤ → WeekSummary :=
  logs.foldl weeklyStep (fun _ => ⟨0, 0, 0, 0, 0⟩)

/-- States reachable from an empty database through the three POST routes.
(`GET /` only reads.) -/
inductive Reach : AppState → Prop
  | init : Reach ⟨[], [], []⟩
  | setup (st : AppState) (f : SetupForm) : Reach st → Reach (setup_profile st f).1
  | log (st : AppState) (f : LogForm) (t : ℤ) : Reach st → Reach (log_data st f t).1
  | upd (st : AppState) (f : Option (Option ℚ)) : Reach st → Reach (update_body_fat st f).1

/-! ### Basic facts about the rounding helpers -/

/-- `pyRound` unfolded, with the floor written as `⌊q⌋`. -/
lemma pyRound_def (q : ℚ) :
    pyRound q =
      if q - ⌊q⌋ < 1/2 then ⌊q⌋
      else if 1/2 < q - ⌊q⌋ then ⌊q⌋ + 1
      else if ⌊q⌋ % 2 = 0 then ⌊q⌋ else ⌊q⌋ + 1 := rfl

/-- `pyRound q` is a nearest integer to `q`. -/
lemma abs_pyRound_sub_le (q : ℚ) : |(pyRound q : ℚ) - q| ≤ 1/2 := by
  have h0 : (⌊q⌋ : ℚ) ≤ q := Int.floor_le q
  have h1 : q < (⌊q⌋ : ℚ) + 1 := Int.lt_floor_add_one q
  rw [pyRound_def]
  split_ifs with hlt hgt hev <;> rw [abs_le] <;> constructor <;> push_cast <;> linarith

lemma pyRound_nonneg {q : ℚ} (h : 0 ≤ q) : 0 ≤ pyRound q := by
  have h0 : (0 : ℤ) ≤ ⌊q⌋ := Int.floor_nonneg.mpr h
  rw [pyRound_def]
  split_ifs <;> omega

lemma round2_nonneg {q : ℚ} (h : 0 ≤ q) : 0 ≤ round2 q := by
  have h0 : 0 ≤ pyRound (q * 100) := pyRound_nonneg (by linarith)
  unfold round2
  have : (0 : ℚ) ≤ (pyRound (q * 100) : ℚ) := by exact_mod_cast h0
  linarith

lemma round2_zero : round2 0 = 0 := by
  norm_num [round2, pyRound_def]

/-- `round2 q` is within half a hundredth of `q`. -/
lemma abs_round2_sub_le (q : ℚ) : |round2 q - q| ≤ 1/200 := by
  have h := abs_pyRound_sub_le (q * 100)
  unfold round2
  rw [abs_le] at h ⊢
  constructor
  · linarith [h.1]
  · linarith [h.2]

/-! ### Evaluation rules for the form-field helpers -/

@[simp] lemma formGetDefault_absent {α : Type} (d : α) :
    formGetDefault none d = some d := rfl

@[simp] lemma formGetDefault_malformed {α : Type} (d : α) :
    formGetDefault (some none) d = (none : Option α) := rfl

@[simp] lemma formGetDefault_present {α : Type} (v d : α) :
    formGetDefault (some (some v)) d = some v := rfl

@[simp] lemma formGetRequired_present {α : Type} (v : α) :
    formGetRequired (some (some v)) = some v := rfl

@[simp] lemma formGetRequired_absent {α : Type} :
    formGetRequired (none : Option (Option α)) = none := rfl

@[simp] lemma formGetRequired_malformed {α : Type} :
    formGetRequired (some (none : Option α)) = none := rfl

/-! ### Facts about the list-level upsert -/

lemma find?_append_of_none {p : DailyLog → Bool} {l1 l2 : List DailyLog}
    (h : l1.find? p = none) : (l1 ++ l2).find? p = l2.find? p := by
  induction l1 with
  | nil => rfl
  | cons a l ih =>
    cases hpa : p a with
    | true => rw [List.find?_cons_of_pos _ hpa] at h; exact absurd h (by simp)
    | false =>
      rw [List.find?_cons_of_neg _ (by simp [hpa])] at h
      rw [List.cons_append, List.find?_cons_of_neg _ (by simp [hpa])]
      exact ih h

lemma find?_updateFirstLog {d : ℤ} {f : DailyLog → DailyLog}
    (hf : ∀ r, (f r).date = r.date) {l : List DailyLog} {r : DailyLog}
    (h : l.find? (fun x => x.date == d) = some r) :
    (updateFirstLog d f l).find? (fun x => x.date == d) = some (f r) := by
  induction l with
  | nil => simp [List.find?] at h
  | cons a l ih =>
    by_cases ha : a.date = d
    · rw [List.find?_cons_of_pos _ (by simp [ha])] at h
      injection h with h
      subst h
      rw [updateFirstLog, if_pos ha, List.find?_cons_of_pos _ (by simp [hf, ha])]
    · rw [List.find?_cons_of_neg _ (by simp [ha])] at h
      rw [updateFirstLog, if_neg ha, List.find?_cons_of_neg _ (by simp [ha])]
      exact ih h

lemma countP_updateFirstLog {d : ℤ} {f : DailyLog → DailyLog}
    (hf : ∀ r, (f r).date = r.date) (l : List DailyLog) (d' : ℤ) :
    (updateFirstLog d f l).countP (fun x => x.date == d')
      = l.countP (fun x => x.date == d') := by
  induction l with
  | nil => rfl
  | cons a l ih =>
    by_cases ha : a.date = d
    · rw [updateFirstLog, if_pos ha]
      simp [List.countP_cons, hf]
    · rw [updateFirstLog, if_neg ha]
      simp [List.countP_cons, ih]

lemma countP_eq_zero_of_find?_none {p : DailyLog → Bool} {l : List DailyLog}
    (h : l.find? p = none) : l.countP p = 0 := by
  rw [List.find?_eq_none] at h
  rw [List.countP_eq_zero]
  exact h

lemma countP_pos_of_find?_some {p : DailyLog → Bool} {l : List DailyLog} {r : DailyLog}
    (h : l.find? p = some r) : 0 < l.countP p := by
  rw [List.countP_pos_iff]
  exact ⟨r, List.mem_of_find?_eq_some h, List.find?_some h⟩

/-! ### Shape of the route handlers -/

/-- The row `/log` stores on a successful submission with resolved inputs
`d` (date), `w` (weight), `wk` (walk km), `c` (consumed), `b` (burnt),
against a profile whose body fat is `body_fat`. -/
def computedLog (body_fat : ℚ) (d : ℤ) (w wk c b : ℚ) : DailyLog :=
  let bmr : ℚ := ((pyRound (370 + 21.6 * (w * (1 - body_fat / 100))) : ℤ) : ℚ)
  let total_burn := bmr + wk * 60 + b
  let deficit := total_burn - c
  let fat_loss_g := if 0 < deficit then deficit / 7700 * 1000 else 0
  ⟨d, w, wk, c, b, ((pyRound total_burn : ℤ) : ℚ), ((pyRound deficit : ℤ) : ℚ),
   round2 fat_loss_g⟩

/-- A `/log` call either leaves the state unchanged or all five fields
resolved successfully. -/
lemma log_data_shape (st : AppState) (form : LogForm) (today : ℤ) :
    log_data st form today = (st, Response.redirectHome) ∨
    ∃ user rest d w wk c b, st.profiles = user :: rest ∧
      formGetDefault form.date today = some d ∧
      formGetDefault form.weight user.weight = some w ∧
      formGetDefault form.walk 0 = some wk ∧
      formGetDefault form.consumed 0 = some c ∧
      formGetDefault form.burnt 0 = some b := by
  cases hp : st.profiles with
  | nil => left; unfold log_data; rw [hp]
  | cons user rest =>
    cases hd : formGetDefault form.date today with
    | none => left; unfold log_data; rw [hp]; dsimp only; rw [hd]
    | some d =>
      cases hw : formGetDefault form.weight user.weight with
      | none => left; unfold log_data; rw [hp]; dsimp only; rw [hd, hw]
      | some w =>
        cases hwk : formGetDefault form.walk 0 with
        | none => left; unfold log_data; rw [hp]; dsimp only; rw [hd, hw, hwk]
        | some wk =>
          cases hc : formGetDefault form.consumed 0 with
          | none => left; unfold log_data; rw [hp]; dsimp only; rw [hd, hw, hwk, hc]
          | some c =>
            cases hb : formGetDefault form.burnt 0 with
            | none => left; unfold log_data; rw [hp]; dsimp only; rw [hd, hw, hwk, hc, hb]
            | some b =>
              right
              exact ⟨user, rest, d, w, wk, c, b, rfl, rfl, hw, rfl, rfl, rfl⟩

/-- The in-place mutation `/log` applies to an already existing row for the
same date: overwrite every field except `date`. -/
def logOverwrite (body_fat : ℚ) (d : ℤ) (w wk c b : ℚ) (r : DailyLog) : DailyLog :=
  { r with weight := w, walk_km := wk, consumed_calories := c, exercise_burnt := b,
           total_burn := (computedLog body_fat d w wk c b).total_burn,
           deficit := (computedLog body_fat d w wk c b).deficit,
           fat_loss_g := (computedLog body_fat d w wk c b).fat_loss_g }

lemma logOverwrite_date (body_fat : ℚ) (d : ℤ) (w wk c b : ℚ) (r : DailyLog) :
    (logOverwrite body_fat d w wk c b r).date = r.date := rfl

/-- What a successful `/log` call does to the state. -/
lemma log_data_success (st : AppState) (form : LogForm) (today : ℤ)
    (user : UserProfile) (rest : List UserProfile) (d : ℤ) (w wk c b : ℚ)
    (hp : st.profiles = user :: rest)
    (hd : formGetDefault form.date today = some d)
    (hw : formGetDefault form.weight user.weight = some w)
    (hwk : formGetDefault form.walk 0 = some wk)
    (hc : formGetDefault form.consumed 0 = some c)
    (hb : formGetDefault form.burnt 0 = some b) :
    log_data st form today =
      ({ st with logs :=
          match st.logs.find? (fun r => r.date == d) with
          | some _ =>
            updateFirstLog d (logOverwrite user.body_fat d w wk c b) st.logs
          | none => st.logs ++ [computedLog user.body_fat d w wk c b] },
       Response.redirectHome) := by
  unfold log_data
  rw [hp]
  dsimp only
  rw [hd, hw, hwk, hc, hb]
  rfl

/-- After a successful `/log` for date `d`, the first stored row with date
`d` is exactly the computed row. -/
lemma log_data_find (st : AppState) (form : LogForm) (today : ℤ)
    (user : UserProfile) (rest : List UserProfile) (d : ℤ) (w wk c b : ℚ)
    (hp : st.profiles = user :: rest)
    (hd : formGetDefault form.date today = some d)
    (hw : formGetDefault form.weight user.weight = some w)
    (hwk : formGetDefault form.walk 0 = some wk)
    (hc : formGetDefault form.consumed 0 = some c)
    (hb : formGetDefault form.burnt 0 = some b) :
    (log_data st form today).1.logs.find? (fun x => x.date == d)
      = some (computedLog user.body_fat d w wk c b) := by
  rw [log_data_success st form today user rest d w wk c b hp hd hw hwk hc hb]
  cases hfind : st.logs.find? (fun x => x.date == d) with
  | none =>
    dsimp only
    rw [find?_append_of_none hfind, List.find?_cons_of_pos _ (by simp [computedLog])]
  | some r =>
    dsimp only
    rw [find?_updateFirstLog (logOverwrite_date user.body_fat d w wk c b) hfind]
    have hr : r.date = d := by simpa using List.find?_some hfind
    cases r
    simp only at hr
    subst hr
    rfl

/-- After a successful `/log` for date `d`, starting from a store with at
most one row for `d`, there is exactly one row for `d`. -/
lemma log_data_countP_one (st : AppState) (form : LogForm) (today : ℤ)
    (user : UserProfile) (rest : List UserProfile) (d : ℤ) (w wk c b : ℚ)
    (hp : st.profiles = user :: rest)
    (hd : formGetDefault form.date today = some d)
    (hw : formGetDefault form.weight user.weight = some w)
    (hwk : formGetDefault form.walk 0 = some wk)
    (hc : formGetDefault form.consumed 0 = some c)
    (hb : formGetDefault form.burnt 0 = some b)
    (hinv : st.logs.countP (fun x => x.date == d) ≤ 1) :
    (log_data st form today).1.logs.countP (fun x => x.date == d) = 1 := by
  rw [log_data_success st form today user rest d w wk c b hp hd hw hwk hc hb]
  cases hfind : st.logs.find? (fun x => x.date == d) with
  | none =>
    dsimp only
    rw [List.countP_append, countP_eq_zero_of_find?_none hfind]
    simp [computedLog, List.countP_cons]
  | some r =>
    dsimp only
    rw [countP_updateFirstLog (logOverwrite_date user.body_fat d w wk c b) st.logs d]
    have h1 := countP_pos_of_find?_some hfind
    omega

/-- `/log` never lets a date's row count grow beyond one. -/
lemma log_data_countP_le (st : AppState) (form : LogForm) (today : ℤ)
    (hinv : ∀ d', st.logs.countP (fun x => x.date == d') ≤ 1) (d' : ℤ) :
    (log_data st form today).1.logs.countP (fun x => x.date == d') ≤ 1 := by
  rcases log_data_shape st form today with h | ⟨user, rest, d, w, wk, c, b, hp, hd, hw, hwk, hc, hb⟩
  · rw [h]; exact hinv d'
  · rw [log_data_success st form today user rest d w wk c b hp hd hw hwk hc hb]
    cases hfind : st.logs.find? (fun x => x.date == d) with
    | none =>
      dsimp only
      rw [List.countP_append]
      by_cases hdd : d = d'
      · subst hdd
        rw [countP_eq_zero_of_find?_none hfind]
        simp [computedLog, List.countP_cons]
      · have hzero : List.countP (fun x => x.date == d')
            [computedLog user.body_fat d w wk c b] = 0 := by
          simp [computedLog, List.countP_cons, hdd]
        rw [hzero]
        simpa using hinv d'
    | some r =>
      dsimp only
      rw [countP_updateFirstLog (logOverwrite_date user.body_fat d w wk c b) st.logs d']
      exact hinv d'

lemma log_data_profiles (st : AppState) (form : LogForm) (today : ℤ) :
    (log_data st form today).1.profiles = st.profiles := by
  rcases log_data_shape st form today with h | ⟨user, rest, d, w, wk, c, b, hp, hd, hw, hwk, hc, hb⟩
  · rw [h]
  · rw [log_data_success st form today user rest d w wk c b hp hd hw hwk hc hb]

lemma log_data_history (st : AppState) (form : LogForm) (today : ℤ) :
    (log_data st form today).1.body_fat_history = st.body_fat_history := by
  rcases log_data_shape st form today with h | ⟨user, rest, d, w, wk, c, b, hp, hd, hw, hwk, hc, hb⟩
  · rw [h]
  · rw [log_data_success st form today user rest d w wk c b hp hd hw hwk hc hb]

/-- A `/setup` call either leaves the state unchanged or all four numeric
fields parsed. -/
lemma setup_profile_shape (st : AppState) (form : SetupForm) :
    setup_profile st form = (st, Response.redirectHome) ∨
    ∃ h w bf a, formGetRequired form.height = some h ∧
      formGetRequired form.weight = some w ∧
      formGetRequired form.body_fat = some bf ∧
      formGetRequired form.age = some a := by
  cases hh : formGetRequired form.height with
  | none => left; unfold setup_profile; rw [hh]
  | some h =>
    cases hw : formGetRequired form.weight with
    | none => left; unfold setup_profile; rw [hh, hw]
    | some w =>
      cases hbf : formGetRequired form.body_fat with
      | none => left; unfold setup_profile; rw [hh, hw, hbf]
      | some bf =>
        cases ha : formGetRequired form.age with
        | none => left; unfold setup_profile; rw [hh, hw, hbf, ha]
        | some a => right; exact ⟨h, w, bf, a, rfl, rfl, rfl, rfl⟩

/-- What a successful `/setup` call does to the state. -/
lemma setup_profile_success (st : AppState) (form : SetupForm) (h w bf : ℚ) (a : ℤ)
    (hh : formGetRequired form.height = some h)
    (hw : formGetRequired form.weight = some w)
    (hbf : formGetRequired form.body_fat = some bf)
    (ha : formGetRequired form.age = some a) :
    setup_profile st form =
      ({ st with
          profiles :=
            match st.profiles with
            | user :: rest =>
              { user with height := h, weight := w, body_fat := bf, age := a,
                          gender := form.gender } :: rest
            | [] => [⟨h, w, bf, a, form.gender⟩],
          body_fat_history := st.body_fat_history ++ [bf] },
       Response.redirectHome) := by
  unfold setup_profile
  rw [hh, hw, hbf, ha]

lemma setup_profile_logs (st : AppState) (form : SetupForm) :
    (setup_profile st form).1.logs = st.logs := by
  rcases setup_profile_shape st form with h | ⟨h, w, bf, a, hh, hw, hbf, ha⟩
  · rw [h]
  · rw [setup_profile_success st form h w bf a hh hw hbf ha]

lemma setup_profile_profiles_le (st : AppState) (form : SetupForm)
    (hle : st.profiles.length ≤ 1) :
    (setup_profile st form).1.profiles.length ≤ 1 := by
  rcases setup_profile_shape st form with h | ⟨h, w, bf, a, hh, hw, hbf, ha⟩
  · rw [h]; exact hle
  · rw [setup_profile_success st form h w bf a hh hw hbf ha]
    cases hsp : st.profiles with
    | nil => simp
    | cons u r =>
      rw [hsp] at hle
      simpa using hle

/-- An `/update-body-fat` call either leaves the state unchanged or there is
a profile and the field parsed. -/
lemma update_body_fat_shape (st : AppState) (field : Option (Option ℚ)) :
    update_body_fat st field = (st, Response.redirectHome) ∨
    ∃ user rest bf, st.profiles = user :: rest ∧ formGetRequired field = some bf := by
  cases hp : st.profiles with
  | nil => left; unfold update_body_fat; rw [hp]
  | cons user rest =>
    cases hbf : formGetRequired field with
    | none => left; unfold update_body_fat; rw [hp]; dsimp only; rw [hbf]
    | some bf => right; exact ⟨user, rest, bf, rfl, rfl⟩

/-- What a successful `/update-body-fat` call does to the state. -/
lemma update_body_fat_success (st : AppState) (field : Option (Option ℚ))
    (user : UserProfile) (rest : List UserProfile) (bf : ℚ)
    (hp : st.profiles = user :: rest) (hbf : formGetRequired field = some bf) :
    update_body_fat st field =
      ({ st with profiles := { user with body_fat := bf } :: rest,
                 body_fat_history := st.body_fat_history ++ [bf] },
       Response.redirectHome) := by
  unfold update_body_fat
  rw [hp]
  dsimp only
  rw [hbf]

lemma update_body_fat_logs (st : AppState) (field : Option (Option ℚ)) :
    (update_body_fat st field).1.logs = st.logs := by
  rcases update_body_fat_shape st field with h | ⟨user, rest, bf, hp, hbf⟩
  · rw [h]
  · rw [update_body_fat_success st field user rest bf hp hbf]

lemma update_body_fat_profiles_length (st : AppState) (field : Option (Option ℚ)) :
    (update_body_fat st field).1.profiles.length = st.profiles.length := by
  rcases update_body_fat_shape st field with h | ⟨user, rest, bf, hp, hbf⟩
  · rw [h]
  · rw [update_body_fat_success st field user rest bf hp hbf, hp]
    rfl

/-- The two store invariants every reachable state satisfies: at most one
profile row, and at most one log row per date. -/
lemma reach_inv (st : AppState) (h : Reach st) :
    st.profiles.length ≤ 1 ∧ ∀ d, st.logs.countP (fun x => x.date == d) ≤ 1 := by
  induction h with
  | init => exact ⟨by simp, fun d => by simp⟩
  | setup st f _ ih =>
    refine ⟨setup_profile_profiles_le st f ih.1, fun d => ?_⟩
    rw [setup_profile_logs]
    exact ih.2 d
  | log st f t _ ih =>
    refine ⟨?_, fun d => log_data_countP_le st f t ih.2 d⟩
    rw [log_data_profiles]
    exact ih.1
  | upd st f _ ih =>
    refine ⟨?_, fun d => ?_⟩
    · rw [update_body_fat_profiles_length]
      exact ih.1
    · rw [update_body_fat_logs]
      exact ih.2 d

/-! ### The weekly aggregator -/

/-- The fold underlying `get_weekly_summary`, evaluated at one week key:
each bucket field is the initial accumulator's value plus the sum of that
field over the logs whose week key matches. -/
lemma foldl_weeklyStep (logs : List DailyLog) (acc : ℤ → WeekSummary) (k : ℤ) :
    (logs.foldl weeklyStep acc) k =
      ⟨(acc k).total_burn
         + ((logs.filter fun r => k == mondayOf r.date).map DailyLog.total_burn).sum,
       (acc k).consumed
         + ((logs.filter fun r => k == mondayOf r.date).map DailyLog.consumed_calories).sum,
       (acc k).deficit
         + ((logs.filter fun r => k == mondayOf r.date).map DailyLog.deficit).sum,
       (acc k).fat_loss
         + ((logs.filter fun r => k == mondayOf r.date).map DailyLog.fat_loss_g).sum,
       (acc k).days + logs.countP (fun r => k == mondayOf r.date)⟩ := by
  induction logs generalizing acc with
  | nil => simp
  | cons l ls ih =>
    rw [List.foldl_cons, ih]
    by_cases hk : k = mondayOf l.date
    · subst hk
      simp only [weeklyStep, if_true]
      simp only [List.filter_cons, List.countP_cons, beq_self_eq_true, if_true,
        List.map_cons, List.sum_cons, WeekSummary.mk.injEq]
      refine ⟨by ring, by ring, by ring, by ring, by omega⟩
    · have hb : (k == mondayOf l.date) = false := by simp [hk]
      simp only [weeklyStep, if_neg hk, List.filter_cons, List.countP_cons, hb]
      simp

/-! ### The claims -/

/-- C1: For every parsed `/log` submission with numeric inputs walk, burnt,
consumed and a BMR value, the Daily Energy Engine stores
totalBurn = BMR + walk*60 + burnt, deficit = totalBurn - consumed, and
fatLossGrams = (deficit/7700)*1000 when deficit > 0 and exactly 0 when
deficit <= 0 (never negative); totalBurn and deficit are rounded to whole
units (nearest integer) and fatLoss to two decimal places (nearest
hundredth). -/
theorem log_data_daily_energy_engine
    (st : AppState) (form : LogForm) (today : ℤ)
    (user : UserProfile) (rest : List UserProfile) (d : ℤ) (w wk c b : ℚ)
    (hp : st.profiles = user :: rest)
    (hd : formGetDefault form.date today = some d)
    (hw : formGetDefault form.weight user.weight = some w)
    (hwk : formGetDefault form.walk 0 = some wk)
    (hc : formGetDefault form.consumed 0 = some c)
    (hb : formGetDefault form.burnt 0 = some b) :
    ∃ bmr totalBurn deficit : ℚ,
      calculate_katch_mcardle_bmr (some w) (some user.body_fat) = some bmr ∧
      totalBurn = bmr + wk * 60 + b ∧
      deficit = totalBurn - c ∧
      ∃ r : DailyLog,
        (log_data st form today).1.logs.find? (fun x => x.date == d) = some r ∧
        r.total_burn = ((pyRound totalBurn : ℤ) : ℚ) ∧
        |r.total_burn - totalBurn| ≤ 1/2 ∧
        r.deficit = ((pyRound deficit : ℤ) : ℚ) ∧
        |r.deficit - deficit| ≤ 1/2 ∧
        r.fat_loss_g = round2 (if 0 < deficit then deficit / 7700 * 1000 else 0) ∧
        |r.fat_loss_g - (if 0 < deficit then deficit / 7700 * 1000 else 0)| ≤ 1/200 ∧
        (deficit ≤ 0 → r.fat_loss_g = 0) ∧
        0 ≤ r.fat_loss_g := by
  refine ⟨((pyRound (370 + 21.6 * (w * (1 - user.body_fat / 100))) : ℤ) : ℚ), _, _,
    rfl, rfl, rfl, computedLog user.body_fat d w wk c b,
    log_data_find st form today user rest d w wk c b hp hd hw hwk hc hb,
    rfl, abs_pyRound_sub_le _, rfl, abs_pyRound_sub_le _, rfl, abs_round2_sub_le _,
    ?_, ?_⟩
  · intro hneg
    show round2 _ = 0
    rw [if_neg (not_lt.mpr hneg)]
    exact round2_zero
  · show 0 ≤ round2 _
    apply round2_nonneg
    split_ifs with hpos
    · positivity
    · exact le_refl 0

/-- C1 witness: a concrete successful submission (profile with body fat 22,
weight 85 kg, walk 5 km, consumed 2000, burnt 0, date 0 = today). -/
theorem log_data_daily_energy_engine_witness :
    (⟨[⟨170, 85, 22, 30, none⟩], [], []⟩ : AppState).profiles
        = ⟨170, 85, 22, 30, none⟩ :: [] ∧
    ∃ bmr totalBurn deficit : ℚ,
      calculate_katch_mcardle_bmr (some 85) (some (22 : ℚ)) = some bmr ∧
      totalBurn = bmr + 5 * 60 + 0 ∧
      deficit = totalBurn - 2000 ∧
      ∃ r : DailyLog,
        (log_data ⟨[⟨170, 85, 22, 30, none⟩], [], []⟩
            ⟨some (some 0), some (some 85), some (some 5), some (some 2000),
             some (some 0)⟩ 0).1.logs.find? (fun x => x.date == 0) = some r ∧
        r.total_burn = ((pyRound totalBurn : ℤ) : ℚ) ∧
        |r.total_burn - totalBurn| ≤ 1/2 ∧
        r.deficit = ((pyRound deficit : ℤ) : ℚ) ∧
        |r.deficit - deficit| ≤ 1/2 ∧
        r.fat_loss_g = round2 (if 0 < deficit then deficit / 7700 * 1000 else 0) ∧
        |r.fat_loss_g - (if 0 < deficit then deficit / 7700 * 1000 else 0)| ≤ 1/200 ∧
        (deficit ≤ 0 → r.fat_loss_g = 0) ∧
        0 ≤ r.fat_loss_g :=
  ⟨rfl, log_data_daily_energy_engine ⟨[⟨170, 85, 22, 30, none⟩], [], []⟩
    ⟨some (some 0), some (some 85), some (some 5), some (some 2000), some (some 0)⟩ 0
    ⟨170, 85, 22, 30, none⟩ [] 0 85 5 2000 0 rfl rfl rfl rfl rfl rfl⟩

/-- C2: For every present weight w and body-fat percentage bf, the BMR
Calculator returns round(370 + 21.6 * (w * (1 - bf/100))) rounded to a
nearest whole unit; in particular BMR(weight 85, body fat 22) = 1802. -/
theorem calculate_katch_mcardle_bmr_formula (w bf : ℚ) :
    calculate_katch_mcardle_bmr (some w) (some bf)
      = some ((pyRound (370 + 21.6 * (w * (1 - bf / 100))) : ℤ) : ℚ) ∧
    |((pyRound (370 + 21.6 * (w * (1 - bf / 100))) : ℤ) : ℚ)
        - (370 + 21.6 * (w * (1 - bf / 100)))| ≤ 1/2 ∧
    calculate_katch_mcardle_bmr (some 85) (some 22) = some 1802 := by
  refine ⟨rfl, abs_pyRound_sub_le _, ?_⟩
  show some ((pyRound (370 + 21.6 * ((85 : ℚ) * (1 - 22 / 100))) : ℤ) : ℚ) = some 1802
  norm_num [pyRound_def]

/-- C9: If either input of the BMR Calculator is missing (None), the result
is None, not a value computed from a substituted default. -/
theorem calculate_katch_mcardle_bmr_missing (w bf : Option ℚ)
    (h : w = none ∨ bf = none) :
    calculate_katch_mcardle_bmr w bf = none := by
  rcases h with h | h
  · subst h; rfl
  · subst h; cases w <;> rfl

/-- C9 witness: both missing-input cases at concrete values. -/
theorem calculate_katch_mcardle_bmr_missing_witness :
    calculate_katch_mcardle_bmr none (some 22) = none ∧
    calculate_katch_mcardle_bmr (some 85) none = none :=
  ⟨calculate_katch_mcardle_bmr_missing none (some 22) (Or.inl rfl),
   calculate_katch_mcardle_bmr_missing (some 85) none (Or.inr rfl)⟩

/-- A `/log` submission in which some present field does not parse leaves
the state unchanged and redirects. -/
lemma log_data_malformed (st : AppState) (form : LogForm) (today : ℤ)
    (h : form.date = some none ∨ form.weight = some none ∨ form.walk = some none ∨
         form.consumed = some none ∨ form.burnt = some none) :
    log_data st form today = (st, Response.redirectHome) := by
  cases hp : st.profiles with
  | nil => unfold log_data; rw [hp]
  | cons user rest =>
    rcases log_data_shape st form today with heq | ⟨user', rest', d, w, wk, c, b, hp', hd, hw, hwk, hc, hb⟩
    · exact heq
    · rw [hp] at hp'
      injection hp' with h1 h2
      subst h1
      exfalso
      rcases h with hf | hf | hf | hf | hf
      · rw [hf] at hd; exact Option.noConfusion hd
      · rw [hf] at hw; exact Option.noConfusion hw
      · rw [hf] at hwk; exact Option.noConfusion hwk
      · rw [hf] at hc; exact Option.noConfusion hc
      · rw [hf] at hb; exact Option.noConfusion hb

/-- C4: If any of the four numeric inputs or the date of a `/log`
submission fails to parse, the whole submission is discarded: the state
(in particular the log store) is unchanged and the caller is redirected to
the dashboard. -/
theorem log_data_parse_error_discards (st : AppState) (form : LogForm) (today : ℤ)
    (h : form.date = some none ∨ form.weight = some none ∨ form.walk = some none ∨
         form.consumed = some none ∨ form.burnt = some none) :
    log_data st form today = (st, Response.redirectHome) :=
  log_data_malformed st form today h

/-- C4 witness: `walk="abc"` (present but non-numeric) with every other
field well-formed, against a store that already holds a row for the date. -/
theorem log_data_parse_error_discards_witness :
    log_data ⟨[⟨170, 85, 22, 30, none⟩], [⟨7, 80, 1, 1500, 0, 1800, 300, 38.96⟩], [10]⟩
        ⟨some (some 7), some (some 85), some none, some (some 2000), some (some 0)⟩ 7
      = (⟨[⟨170, 85, 22, 30, none⟩], [⟨7, 80, 1, 1500, 0, 1800, 300, 38.96⟩], [10]⟩,
         Response.redirectHome) :=
  log_data_parse_error_discards
    ⟨[⟨170, 85, 22, 30, none⟩], [⟨7, 80, 1, 1500, 0, 1800, 300, 38.96⟩], [10]⟩
    ⟨some (some 7), some (some 85), some none, some (some 2000), some (some 0)⟩ 7
    (Or.inr (Or.inr (Or.inl rfl)))

/-- C10: The `/log` defaults (0 for walk/consumed/burnt, the profile weight
for weight, today for the date) apply exactly when the field is entirely
absent from the submission; a field that is present but non-numeric is not
defaulted: the whole submission is discarded and the store unchanged. -/
theorem log_data_default_semantics :
    (∀ (st : AppState) (form : LogForm) (today : ℤ) user rest,
       st.profiles = user :: rest →
       form.date = none → form.weight = none → form.walk = none →
       form.consumed = none → form.burnt = none →
       (log_data st form today).1.logs.find? (fun x => x.date == today)
         = some (computedLog user.body_fat today user.weight 0 0 0)) ∧
    (∀ (st : AppState) (form : LogForm) (today : ℤ),
       (form.date = some none ∨ form.weight = some none ∨ form.walk = some none ∨
        form.consumed = some none ∨ form.burnt = some none) →
       log_data st form today = (st, Response.redirectHome)) := by
  constructor
  · intro st form today user rest hp h1 h2 h3 h4 h5
    apply log_data_find st form today user rest today user.weight 0 0 0 hp
    · rw [h1]; rfl
    · rw [h2]; rfl
    · rw [h3]; rfl
    · rw [h4]; rfl
    · rw [h5]; rfl
  · intro st form today h
    exact log_data_malformed st form today h

/-- C10 witness: an all-absent form stores the all-default row for today;
a present-but-empty walk field makes the submission a no-op. -/
theorem log_data_default_semantics_witness :
    (log_data ⟨[⟨170, 85, 22, 30, none⟩], [], []⟩ ⟨none, none, none, none, none⟩ 5).1.logs.find?
        (fun x => x.date == 5) = some (computedLog 22 5 85 0 0 0) ∧
    log_data ⟨[⟨170, 85, 22, 30, none⟩], [], []⟩
        ⟨some (some 5), none, some none, none, none⟩ 5
      = (⟨[⟨170, 85, 22, 30, none⟩], [], []⟩, Response.redirectHome) :=
  ⟨log_data_default_semantics.1 ⟨[⟨170, 85, 22, 30, none⟩], [], []⟩
      ⟨none, none, none, none, none⟩ 5 ⟨170, 85, 22, 30, none⟩ [] rfl rfl rfl rfl rfl rfl,
   log_data_default_semantics.2 ⟨[⟨170, 85, 22, 30, none⟩], [], []⟩
      ⟨some (some 5), none, some none, none, none⟩ 5 (Or.inr (Or.inr (Or.inl rfl)))⟩

/-- C8: A `/log` or `/update-body-fat` request while no profile exists is a
no-op (state unchanged: no log row, no body-fat change, no history entry)
and the caller is redirected to the dashboard. -/
theorem missing_profile_noop (st : AppState) (form : LogForm) (today : ℤ)
    (field : Option (Option ℚ)) (h : get_user_profile st = none) :
    log_data st form today = (st, Response.redirectHome) ∧
    update_body_fat st field = (st, Response.redirectHome) := by
  have hp : st.profiles = [] := by
    rw [get_user_profile] at h
    exact List.head?_eq_none_iff.mp h
  constructor
  · unfold log_data; rw [hp]
  · unfold update_body_fat; rw [hp]

/-- C8 witness: the empty store has no profile; both requests are no-ops. -/
theorem missing_profile_noop_witness :
    log_data ⟨[], [], []⟩ ⟨none, none, none, none, none⟩ 0
      = (⟨[], [], []⟩, Response.redirectHome) ∧
    update_body_fat ⟨[], [], []⟩ (some (some 25))
      = (⟨[], [], []⟩, Response.redirectHome) :=
  missing_profile_noop ⟨[], [], []⟩ ⟨none, none, none, none, none⟩ 0 (some (some 25)) rfl

/-- C6: After a successful `/setup`, `getProfile()` returns exactly the
submitted values; an existing profile is mutated in place, otherwise one is
created; at most one profile row ever exists (in any reachable state); and
exactly one `BodyFatHistory` entry with the submitted body fat is appended. -/
theorem setup_profile_roundtrip
    (st : AppState) (form : SetupForm) (h w bf : ℚ) (a : ℤ)
    (hh : formGetRequired form.height = some h)
    (hw : formGetRequired form.weight = some w)
    (hbf : formGetRequired form.body_fat = some bf)
    (ha : formGetRequired form.age = some a) :
    get_user_profile (setup_profile st form).1 = some ⟨h, w, bf, a, form.gender⟩ ∧
    (setup_profile st form).1.body_fat_history = st.body_fat_history ++ [bf] ∧
    (st.profiles = [] →
       (setup_profile st form).1.profiles = [⟨h, w, bf, a, form.gender⟩]) ∧
    (∀ u rest, st.profiles = u :: rest →
       (setup_profile st form).1.profiles = ⟨h, w, bf, a, form.gender⟩ :: rest) ∧
    (∀ st', Reach st' → st'.profiles.length ≤ 1) := by
  rw [setup_profile_success st form h w bf a hh hw hbf ha]
  refine ⟨?_, rfl, ?_, ?_, fun st' hr => (reach_inv st' hr).1⟩
  · cases hsp : st.profiles with
    | nil => rfl
    | cons u r => rfl
  · intro hnil
    rw [hnil]
  · intro u rest hcons
    rw [hcons]

/-- C6 witness: `/setup` on the empty store with concrete values. -/
theorem setup_profile_roundtrip_witness :
    get_user_profile (setup_profile ⟨[], [], []⟩
        ⟨some (some 170), some (some 85), some (some 22), some (some 30), some "m"⟩).1
      = some ⟨170, 85, 22, 30, some "m"⟩ ∧
    (setup_profile ⟨[], [], []⟩
        ⟨some (some 170), some (some 85), some (some 22), some (some 30), some "m"⟩).1.body_fat_history
      = [] ++ [22] ∧
    (setup_profile ⟨[], [], []⟩
        ⟨some (some 170), some (some 85), some (some 22), some (some 30), some "m"⟩).1.profiles
      = [⟨170, 85, 22, 30, some "m"⟩] := by
  have H := setup_profile_roundtrip ⟨[], [], []⟩
    ⟨some (some 170), some (some 85), some (some 22), some (some 30), some "m"⟩
    170 85 22 30 rfl rfl rfl rfl
  exact ⟨H.1, H.2.1, H.2.2.1 rfl⟩

/-- C7: A successful `/update-body-fat` on an existing profile changes only
the profile's body-fat field (height, weight, age, gender untouched), and
appends exactly one `BodyFatHistory` entry with the new value. -/
theorem update_body_fat_frame
    (st : AppState) (field : Option (Option ℚ)) (user : UserProfile)
    (rest : List UserProfile) (bf : ℚ)
    (hp : st.profiles = user :: rest)
    (hbf : formGetRequired field = some bf) :
    ∃ user', (update_body_fat st field).1.profiles = user' :: rest ∧
      user'.body_fat = bf ∧
      user'.height = user.height ∧
      user'.weight = user.weight ∧
      user'.age = user.age ∧
      user'.gender = user.gender ∧
      (update_body_fat st field).1.body_fat_history = st.body_fat_history ++ [bf] ∧
      (update_body_fat st field).1.body_fat_history.length
        = st.body_fat_history.length + 1 ∧
      (update_body_fat st field).1.logs = st.logs := by
  rw [update_body_fat_success st field user rest bf hp hbf]
  exact ⟨{ user with body_fat := bf }, rfl, rfl, rfl, rfl, rfl, rfl, rfl, by simp, rfl⟩

/-- C7 witness: update body fat to 19 on a store with one profile and one
prior history entry. -/
theorem update_body_fat_frame_witness :
    ∃ user', (update_body_fat ⟨[⟨170, 85, 22, 30, none⟩], [], [22]⟩
        (some (some 19))).1.profiles = user' :: [] ∧
      user'.body_fat = 19 ∧
      user'.height = 170 ∧
      user'.weight = 85 ∧
      user'.age = 30 ∧
      user'.gender = none ∧
      (update_body_fat ⟨[⟨170, 85, 22, 30, none⟩], [], [22]⟩
          (some (some 19))).1.body_fat_history = [22] ++ [19] ∧
      (update_body_fat ⟨[⟨170, 85, 22, 30, none⟩], [], [22]⟩
          (some (some 19))).1.body_fat_history.length = ([22] : List ℚ).length + 1 ∧
      (update_body_fat ⟨[⟨170, 85, 22, 30, none⟩], [], [22]⟩
          (some (some 19))).1.logs = [] :=
  update_body_fat_frame ⟨[⟨170, 85, 22, 30, none⟩], [], [22]⟩ (some (some 19))
    ⟨170, 85, 22, 30, none⟩ [] 19 rfl rfl

/-- C3: In a reachable store, after a successful `/log` there is exactly
one log row for the submitted date; submitting the same date twice leaves
exactly one row, whose mutable fields hold the second submission's values
(the row equals the one computed from the second submission). -/
theorem log_data_upsert_exactly_one
    (st : AppState) (form form2 : LogForm) (today : ℤ)
    (user : UserProfile) (rest : List UserProfile) (d : ℤ)
    (w wk c b w2 wk2 c2 b2 : ℚ)
    (hreach : Reach st)
    (hp : st.profiles = user :: rest)
    (hd : formGetDefault form.date today = some d)
    (hw : formGetDefault form.weight user.weight = some w)
    (hwk : formGetDefault form.walk 0 = some wk)
    (hc : formGetDefault form.consumed 0 = some c)
    (hb : formGetDefault form.burnt 0 = some b)
    (hd2 : formGetDefault form2.date today = some d)
    (hw2 : formGetDefault form2.weight user.weight = some w2)
    (hwk2 : formGetDefault form2.walk 0 = some wk2)
    (hc2 : formGetDefault form2.consumed 0 = some c2)
    (hb2 : formGetDefault form2.burnt 0 = some b2) :
    (log_data st form today).1.logs.countP (fun x => x.date == d) = 1 ∧
    (log_data (log_data st form today).1 form2 today).1.logs.countP
        (fun x => x.date == d) = 1 ∧
    (log_data (log_data st form today).1 form2 today).1.logs.find?
        (fun x => x.date == d)
      = some (computedLog user.body_fat d w2 wk2 c2 b2) := by
  have hinv := (reach_inv st hreach).2
  have hp1 : (log_data st form today).1.profiles = user :: rest := by
    rw [log_data_profiles]
    exact hp
  have hinv1 : ∀ d', (log_data st form today).1.logs.countP (fun x => x.date == d') ≤ 1 :=
    fun d' => log_data_countP_le st form today hinv d'
  refine ⟨log_data_countP_one st form today user rest d w wk c b
      hp hd hw hwk hc hb (hinv d), ?_, ?_⟩
  · exact log_data_countP_one (log_data st form today).1 form2 today user rest d
      w2 wk2 c2 b2 hp1 hd2 hw2 hwk2 hc2 hb2 (hinv1 d)
  · exact log_data_find (log_data st form today).1 form2 today user rest d
      w2 wk2 c2 b2 hp1 hd2 hw2 hwk2 hc2 hb2

/-- C3 witness: set up a profile from the empty store (a reachable state),
then log date 9 twice with different values. -/
theorem log_data_upsert_exactly_one_witness :
    (log_data (setup_profile ⟨[], [], []⟩
          ⟨some (some 170), some (some 85), some (some 22), some (some 30), none⟩).1
        ⟨none, none, some (some 5), some (some 2000), none⟩ 9).1.logs.countP
        (fun x => x.date == 9) = 1 ∧
    (log_data (log_data (setup_profile ⟨[], [], []⟩
            ⟨some (some 170), some (some 85), some (some 22), some (some 30), none⟩).1
          ⟨none, none, some (some 5), some (some 2000), none⟩ 9).1
        ⟨some (some 9), some (some 84), some (some 3), some (some 1800), some (some 100)⟩
        9).1.logs.countP (fun x => x.date == 9) = 1 ∧
    (log_data (log_data (setup_profile ⟨[], [], []⟩
            ⟨some (some 170), some (some 85), some (some 22), some (some 30), none⟩).1
          ⟨none, none, some (some 5), some (some 2000), none⟩ 9).1
        ⟨some (some 9), some (some 84), some (some 3), some (some 1800), some (some 100)⟩
        9).1.logs.find? (fun x => x.date == 9)
      = some (computedLog 22 9 84 3 1800 100) :=
  log_data_upsert_exactly_one
    (setup_profile ⟨[], [], []⟩
      ⟨some (some 170), some (some 85), some (some 22), some (some 30), none⟩).1
    ⟨none, none, some (some 5), some (some 2000), none⟩
    ⟨some (some 9), some (some 84), some (some 3), some (some 1800), some (some 100)⟩
    9 ⟨170, 85, 22, 30, none⟩ [] 9 85 5 2000 0 84 3 1800 100
    (Reach.setup ⟨[], [], []⟩
      ⟨some (some 170), some (some 85), some (some 22), some (some 30), none⟩ Reach.init)
    rfl rfl rfl rfl rfl rfl rfl rfl rfl rfl rfl

/-- C5: The Weekly Aggregator groups each log under the Monday of its ISO
week (the unique Monday at most six days before the log's date) and per
week sums total burn, consumed, deficit and fat loss and counts the days
present; two logs in one ISO week with total burns 2000 and 2200 aggregate
to total burn 4200 over 2 days. -/
theorem get_weekly_summary_spec :
    (∀ (logs : List DailyLog) (k : ℤ),
       get_weekly_summary logs k =
         ⟨((logs.filter fun r => k == mondayOf r.date).map DailyLog.total_burn).sum,
          ((logs.filter fun r => k == mondayOf r.date).map DailyLog.consumed_calories).sum,
          ((logs.filter fun r => k == mondayOf r.date).map DailyLog.deficit).sum,
          ((logs.filter fun r => k == mondayOf r.date).map DailyLog.fat_loss_g).sum,
          logs.countP fun r => k == mondayOf r.date⟩) ∧
    (∀ d : ℤ, mondayOf d % 7 = 0 ∧ mondayOf d ≤ d ∧ d < mondayOf d + 7) ∧
    (∀ l1 l2 : DailyLog, mondayOf l1.date = mondayOf l2.date →
       l1.total_burn = 2000 → l2.total_burn = 2200 →
       (get_weekly_summary [l1, l2] (mondayOf l1.date)).total_burn = 4200 ∧
       (get_weekly_summary [l1, l2] (mondayOf l1.date)).days = 2) := by
  have hmain : ∀ (logs : List DailyLog) (k : ℤ),
      get_weekly_summary logs k =
        ⟨((logs.filter fun r => k == mondayOf r.date).map DailyLog.total_burn).sum,
         ((logs.filter fun r => k == mondayOf r.date).map DailyLog.consumed_calories).sum,
         ((logs.filter fun r => k == mondayOf r.date).map DailyLog.deficit).sum,
         ((logs.filter fun r => k == mondayOf r.date).map DailyLog.fat_loss_g).sum,
         logs.countP fun r => k == mondayOf r.date⟩ := by
    intro logs k
    unfold get_weekly_summary
    rw [foldl_weeklyStep]
    simp
  refine ⟨hmain, ?_, ?_⟩
  · intro d
    unfold mondayOf
    refine ⟨by omega, by omega, by omega⟩
  · intro l1 l2 h12 htb1 htb2
    have e1 : ((mondayOf l1.date) == mondayOf l1.date) = true := by simp
    have e2 : ((mondayOf l1.date) == mondayOf l2.date) = true := by simp [h12]
    constructor
    · rw [hmain]
      simp [List.filter_cons, e1, e2, htb1, htb2]
      norm_num
    · rw [hmain]
      simp [List.countP_cons, e1, e2]

/-- C5 witness: dates 3 and 5 lie in the week of Monday 0; total burns 2000
and 2200 aggregate to 4200 over 2 days. -/
theorem get_weekly_summary_spec_witness :
    (get_weekly_summary [⟨3, 85, 0, 0, 0, 2000, 0, 0⟩, ⟨5, 85, 0, 0, 0, 2200, 0, 0⟩]
        (mondayOf 3)).total_burn = 4200 ∧
    (get_weekly_summary [⟨3, 85, 0, 0, 0, 2000, 0, 0⟩, ⟨5, 85, 0, 0, 0, 2200, 0, 0⟩]
        (mondayOf 3)).days = 2 :=
  get_weekly_summary_spec.2.2 ⟨3, 85, 0, 0, 0, 2000, 0, 0⟩ ⟨5, 85, 0, 0, 0, 2200, 0, 0⟩
    (by decide) rfl rfl
